import Mathlib

/-!
Verification of the four-stage job-search pipeline in `ai_job_crew.py`
(query generation → search collection → detail extraction → report
composition).  The pydantic schema contracts, the two tool functions and
the crew assembly are embedded from the source; the sequential
orchestration semantics of `Crew.kickoff` (library code not present in
the repository) is modelled from the specification.
-/

namespace AiJobCrew

/-- Structured values exchanged between stages: the shallow embedding of
the JSON payloads pydantic validates. -/
inductive Json where
  | str (s : String)
  | num (n : Int)
  | arr (xs : List Json)
  | obj (fields : List (String × Json))
  | null
deriving Repr

/-- First value bound to a key in a string-keyed mapping, as pydantic
field lookup on a JSON object. -/
def jlookup {α : Type} (k : String) : List (String × α) → Option α
  | [] => none
  | (k', v) :: rest => if k' = k then some v else jlookup k rest

/-- Coerce a JSON value to a string field, as pydantic `str` validation. -/
def Json.asString : Json → Option String
  | .str s => some s
  | _ => none

/-- Coerce a JSON value to an integer field, as pydantic `int` validation. -/
def Json.asInt : Json → Option Int
  | .num n => some n
  | _ => none

/-- Validate every element of a list, failing if any element fails:
pydantic validation of a `List[...]` field. -/
def parseAll {α : Type} (f : Json → Option α) : List Json → Option (List α)
  | [] => some []
  | x :: xs =>
    match f x with
    | none => none
    | some y =>
      match parseAll f xs with
      | none => none
      | some ys => some (y :: ys)

/-- Validate a JSON value as a list of strings (`List[str]`). -/
def Json.asStringList : Json → Option (List String)
  | .arr xs => parseAll Json.asString xs
  | _ => none

/-- The configured query budget, `NUM_QUERIES = 10` in the source. -/
def NUM_QUERIES : Nat := 10

/-- Stage-1 artifact: `SuggestedSearchQueries(queries: List[str])` with
`min_items=1, max_items=NUM_QUERIES`. -/
structure SuggestedSearchQueries where
  queries : List String
deriving Repr, DecidableEq

/-- Pydantic validation of a raw value against the `SuggestedSearchQueries`
contract: an object with a `queries` field holding a list of between 1 and
`NUM_QUERIES` strings. -/
def SuggestedSearchQueries.parse (raw : Json) : Option SuggestedSearchQueries :=
  match raw with
  | .obj fields =>
    match jlookup "queries" fields with
    | none => none
    | some v =>
      match v.asStringList with
      | none => none
      | some qs =>
        if 1 ≤ qs.length ∧ qs.length ≤ NUM_QUERIES then some ⟨qs⟩ else none
  | _ => none

/-- Serialization of a validated `SuggestedSearchQueries` artifact back to
JSON, as pydantic model serialization. -/
def SuggestedSearchQueries.toJson (a : SuggestedSearchQueries) : Json :=
  .obj [("queries", .arr (a.queries.map Json.str))]

/-- Stage-2 record: `SingleSearchResult(title, url, content, search_query)`,
all strings. -/
structure SingleSearchResult where
  title : String
  url : String
  content : String
  search_query : String
deriving Repr, DecidableEq

/-- Pydantic validation of one raw search result against
`SingleSearchResult`: an object with the four string fields present. -/
def SingleSearchResult.parse (raw : Json) : Option SingleSearchResult :=
  match raw with
  | .obj fields =>
    match jlookup "title" fields with
    | none => none
    | some tv =>
      match tv.asString with
      | none => none
      | some t =>
        match jlookup "url" fields with
        | none => none
        | some uv =>
          match uv.asString with
          | none => none
          | some u =>
            match jlookup "content" fields with
            | none => none
            | some cv =>
              match cv.asString with
              | none => none
              | some c =>
                match jlookup "search_query" fields with
                | none => none
                | some qv =>
                  match qv.asString with
                  | none => none
                  | some q => some ⟨t, u, c, q⟩
  | _ => none

/-- Serialization of a validated `SingleSearchResult` back to JSON. -/
def SingleSearchResult.toJson (r : SingleSearchResult) : Json :=
  .obj [("title", .str r.title), ("url", .str r.url),
        ("content", .str r.content), ("search_query", .str r.search_query)]

/-- Stage-2 artifact: `AllSearchResults(results: List[SingleSearchResult])`
with `min_items=20`. -/
structure AllSearchResults where
  results : List SingleSearchResult
deriving Repr, DecidableEq

/-- Pydantic validation of a raw value against the `AllSearchResults`
contract: an object whose `results` field is a list of at least 20 valid
`SingleSearchResult` records. -/
def AllSearchResults.parse (raw : Json) : Option AllSearchResults :=
  match raw with
  | .obj fields =>
    match jlookup "results" fields with
    | none => none
    | some v =>
      match v with
      | .arr xs =>
        match parseAll SingleSearchResult.parse xs with
        | none => none
        | some rs => if 20 ≤ rs.length then some ⟨rs⟩ else none
      | _ => none
  | _ => none

/-- Serialization of a validated `AllSearchResults` artifact back to JSON. -/
def AllSearchResults.toJson (a : AllSearchResults) : Json :=
  .obj [("results", .arr (a.results.map SingleSearchResult.toJson))]

/-- Stage-3 nested record: `JobSpec(specification_name, specification_value)`. -/
structure JobSpec where
  specification_name : String
  specification_value : String
deriving Repr, DecidableEq

/-- Pydantic validation of one raw job-spec entry against `JobSpec`. -/
def JobSpec.parse (raw : Json) : Option JobSpec :=
  match raw with
  | .obj fields =>
    match jlookup "specification_name" fields with
    | none => none
    | some nv =>
      match nv.asString with
      | none => none
      | some n =>
        match jlookup "specification_value" fields with
        | none => none
        | some vv =>
          match vv.asString with
          | none => none
          | some v => some ⟨n, v⟩
  | _ => none

/-- Serialization of a validated `JobSpec` back to JSON. -/
def JobSpec.toJson (s : JobSpec) : Json :=
  .obj [("specification_name", .str s.specification_name),
        ("specification_value", .str s.specification_value)]

/-- Stage-3 record: `SingleExtractedJob`.  `salary: str = None` is the only
field with a default, so it is the only field whose absence is tolerated;
all other fields are required. -/
structure SingleExtractedJob where
  page_url : String
  job_title : String
  company_name : String
  location : String
  job_posting_url : String
  job_posting_date : String
  salary : Option String
  job_specs : List JobSpec
  agent_recommendation_rank : Int
  agent_recommendation_notes : List String
deriving Repr, DecidableEq

/-- The nine required field names of `SingleExtractedJob` (every declared
field except `salary`), in declaration order. -/
def SingleExtractedJob.requiredFields : List String :=
  ["page_url", "job_title", "company_name", "location", "job_posting_url",
   "job_posting_date", "job_specs", "agent_recommendation_rank",
   "agent_recommendation_notes"]

/-- Pydantic validation of one raw candidate against `SingleExtractedJob`:
every required field must be present with the declared type; a missing
`salary` defaults to `None`. -/
def SingleExtractedJob.parse (raw : Json) : Option SingleExtractedJob :=
  match raw with
  | .obj fields =>
    match jlookup "page_url" fields with
    | none => none
    | some pv =>
      match pv.asString with
      | none => none
      | some pu =>
        match jlookup "job_title" fields with
        | none => none
        | some tv =>
          match tv.asString with
          | none => none
          | some jt =>
            match jlookup "company_name" fields with
            | none => none
            | some cv =>
              match cv.asString with
              | none => none
              | some cn =>
                match jlookup "location" fields with
                | none => none
                | some lv =>
                  match lv.asString with
                  | none => none
                  | some loc =>
                    match jlookup "job_posting_url" fields with
                    | none => none
                    | some jv =>
                      match jv.asString with
                      | none => none
                      | some jpu =>
                        match jlookup "job_posting_date" fields with
                        | none => none
                        | some dv =>
                          match dv.asString with
                          | none => none
                          | some jpd =>
                            match
                              (match jlookup "salary" fields with
                               | none => some none
                               | some sv =>
                                 match sv.asString with
                                 | none => none
                                 | some s => some (some s)) with
                            | none => none
                            | some sal =>
                              match jlookup "job_specs" fields with
                              | none => none
                              | some spv =>
                                match spv with
                                | .arr sps =>
                                  match parseAll JobSpec.parse sps with
                                  | none => none
                                  | some specs =>
                                    match jlookup "agent_recommendation_rank" fields with
                                    | none => none
                                    | some rv =>
                                      match rv.asInt with
                                      | none => none
                                      | some rank =>
                                        match jlookup "agent_recommendation_notes" fields with
                                        | none => none
                                        | some nv =>
                                          match nv.asStringList with
                                          | none => none
                                          | some notes =>
                                            some ⟨pu, jt, cn, loc, jpu, jpd,
                                                  sal, specs, rank, notes⟩
                                | _ => none
  | _ => none

/-- Serialization of a validated `SingleExtractedJob` back to JSON. -/
def SingleExtractedJob.toJson (j : SingleExtractedJob) : Json :=
  .obj ([("page_url", .str j.page_url), ("job_title", .str j.job_title),
         ("company_name", .str j.company_name), ("location", .str j.location),
         ("job_posting_url", .str j.job_posting_url),
         ("job_posting_date", .str j.job_posting_date)]
        ++ (match j.salary with
            | none => []
            | some s => [("salary", Json.str s)])
        ++ [("job_specs", .arr (j.job_specs.map JobSpec.toJson)),
            ("agent_recommendation_rank", .num j.agent_recommendation_rank),
            ("agent_recommendation_notes",
             .arr (j.agent_recommendation_notes.map Json.str))])

/-- Stage-3 artifact: `AllExtractedJobs(jobs: List[SingleExtractedJob])`,
with no cardinality constraint on the list. -/
structure AllExtractedJobs where
  jobs : List SingleExtractedJob
deriving Repr, DecidableEq

/-- Pydantic validation of a raw value against the `AllExtractedJobs`
contract: an object whose `jobs` field is a list of valid
`SingleExtractedJob` records, of any length. -/
def AllExtractedJobs.parse (raw : Json) : Option AllExtractedJobs :=
  match raw with
  | .obj fields =>
    match jlookup "jobs" fields with
    | none => none
    | some v =>
      match v with
      | .arr xs =>
        match parseAll SingleExtractedJob.parse xs with
        | none => none
        | some js => some ⟨js⟩
      | _ => none
  | _ => none

/-- Serialization of a validated `AllExtractedJobs` artifact back to JSON. -/
def AllExtractedJobs.toJson (a : AllExtractedJobs) : Json :=
  .obj [("jobs", .arr (a.jobs.map SingleExtractedJob.toJson))]

mutual

/-- Render a JSON value to text, as pydantic `schema_json` serialization. -/
def Json.render : Json → String
  | .str s => "\"" ++ s ++ "\""
  | .num n => toString n
  | .arr xs => "[" ++ Json.renderItems xs ++ "]"
  | .obj fs => "\x7b" ++ Json.renderFields fs ++ "\x7d"
  | .null => "null"

/-- Render the comma-separated items of a JSON array. -/
def Json.renderItems : List Json → String
  | [] => ""
  | [x] => Json.render x
  | x :: y :: rest => Json.render x ++ ", " ++ Json.renderItems (y :: rest)

/-- Render the comma-separated key/value pairs of a JSON object. -/
def Json.renderFields : List (String × Json) → String
  | [] => ""
  | [(k, v)] => "\"" ++ k ++ "\": " ++ Json.render v
  | (k, v) :: p :: rest =>
    "\"" ++ k ++ "\": " ++ Json.render v ++ ", " ++ Json.renderFields (p :: rest)

end

/-- The JSON schema of the `SingleExtractedJob` contract, as produced by
pydantic `SingleExtractedJob.schema_json()`: one property per declared
field, with every field except `salary` listed as required. -/
def SingleExtractedJob.schema : Json :=
  .obj [("title", .str "SingleExtractedJob"),
        ("type", .str "object"),
        ("properties", .obj [
          ("page_url", .obj [("title", .str "Page Url"), ("type", .str "string")]),
          ("job_title", .obj [("title", .str "Job Title"), ("type", .str "string")]),
          ("company_name", .obj [("title", .str "Company Name"), ("type", .str "string")]),
          ("location", .obj [("title", .str "Location"), ("type", .str "string")]),
          ("job_posting_url", .obj [("title", .str "Job Posting Url"), ("type", .str "string")]),
          ("job_posting_date", .obj [("title", .str "Job Posting Date"), ("type", .str "string")]),
          ("salary", .obj [("title", .str "Salary"), ("type", .str "string")]),
          ("job_specs", .obj [("title", .str "Job Specs"), ("type", .str "array")]),
          ("agent_recommendation_rank",
           .obj [("title", .str "Agent Recommendation Rank"), ("type", .str "integer")]),
          ("agent_recommendation_notes",
           .obj [("title", .str "Agent Recommendation Notes"), ("type", .str "array")])]),
        ("required", .arr (SingleExtractedJob.requiredFields.map Json.str))]

/-- The serialized `SingleExtractedJob` contract embedded into the scraping
instruction, `SingleExtractedJob.schema_json()` in the source. -/
def SingleExtractedJob.schema_json : String :=
  Json.render SingleExtractedJob.schema

/-- The extraction instruction `web_scraping_tool` sends to the scraping
collaborator: the f-string
`Extract ...json\n\x7bSingleExtractedJob.schema_json()\x7d\n... from the job posting web page.`. -/
def scrape_user_prompt : String :=
  "Extract ```json\n" ++ SingleExtractedJob.schema_json
    ++ "\n``` from the job posting web page."

/-- The `search_engine_tool`: `return search_client.search(query)` — the
raw provider payload, or the provider's exception, returned unchanged.
The external Tavily client is a parameter; `Except` models a raised
exception. -/
def search_engine_tool (search_client : String → Except String Json)
    (query : String) : Except String Json :=
  search_client query

/-- The `web_scraping_tool`: calls
`scrape_client.smartscraper(website_url=page_url, user_prompt=...)` and
returns `{"page_url": page_url, "details": details}`.  The external
ScrapeGraph client is a parameter taking the website URL and the user
prompt. -/
def web_scraping_tool (scrape_client : String → String → Json)
    (page_url : String) : Json :=
  Json.obj [("page_url", .str page_url),
            ("details", scrape_client page_url scrape_user_prompt)]

/-- The fixed output directory, `OUTPUT_DIR = "./ai-agent-output"`. -/
def OUTPUT_DIR : String := "./ai-agent-output"

/-- Stage-1 persistence target. -/
def step1_output_file : String :=
  OUTPUT_DIR ++ "/step_1_suggested_job_search_queries.json"

/-- Stage-2 persistence target. -/
def step2_output_file : String :=
  OUTPUT_DIR ++ "/step_2_job_search_results.json"

/-- Stage-3 persistence target. -/
def step3_output_file : String :=
  OUTPUT_DIR ++ "/step_3_extracted_jobs.json"

/-- Stage-4 persistence target. -/
def step4_output_file : String :=
  OUTPUT_DIR ++ "/step_4_recruitment_report.html"

/-- Modelled from the spec: the outcome of one capability invocation (the
language-model round trip for a stage, including any nested tool calls) —
either a raised collaborator error or a raw structured completion.  The
capability itself (`crewai`'s LLM execution) is not part of the repository. -/
inductive StageOutcome where
  | collab_error
  | output (raw : Json)

/-- Modelled from the spec: a Stage bundles the capability binding, the
Schema Contract validation of the raw completion, and the persistence
target — the data of a `crewai` `Task`.  `validate` returns the validated
artifact or `none` on a `ValidationError`. -/
structure Stage where
  produce : List Json → StageOutcome
  validate : Json → Option Json
  output_file : String

/-- Terminal state of a run: `COMPLETED`, or `FAILED` on any unhandled
stage error (no retry transition exists). -/
inductive RunState where
  | COMPLETED
  | FAILED
deriving DecidableEq, Repr

/-- The persisted-artifact store: contents of each output path, if written. -/
def Fs : Type := String → Option Json

/-- Observable events of a run, in order: stage invocation, validation
success/failure, collaborator failure, artifact persistence. -/
inductive Event where
  | invoke (stage : Nat)
  | validated (stage : Nat)
  | validation_failed (stage : Nat)
  | collab_failed (stage : Nat)
  | persisted (stage : Nat) (path : String)
deriving DecidableEq, Repr

/-- Modelled from the spec: execution of one stage — invoke the capability
with the accumulated context; on a raw completion, validate it against the
stage's Schema Contract; persist the validated artifact to the stage's
output file; an artifact that fails validation is never persisted. -/
def runStage (i : Nat) (st : Stage) (ctx : List Json) (fs : Fs) :
    List Event × Fs × Option Json :=
  match st.produce ctx with
  | .collab_error => ([.invoke i, .collab_failed i], fs, none)
  | .output raw =>
    match st.validate raw with
    | none => ([.invoke i, .validation_failed i], fs, none)
    | some art =>
      ([.invoke i, .validated i, .persisted i st.output_file],
       fun p => if p = st.output_file then some art else fs p,
       some art)

/-- Modelled from the spec: the sequential Pipeline Orchestrator
(`Process.sequential` in `crewai`) — stages run strictly one at a time in
list order, each receiving the concatenation of all prior validated
artifacts as context; any stage failure ends the run as `FAILED` with no
later stage invoked. -/
def runStages : Nat → List Stage → List Json → Fs → List Event × Fs × RunState
  | _, [], _, fs => ([], fs, .COMPLETED)
  | i, st :: rest, ctx, fs =>
    let step := runStage i st ctx fs
    match step.2.2 with
    | none => (step.1, step.2.1, .FAILED)
    | some art =>
      let r := runStages (i + 1) rest (ctx ++ [art]) step.2.1
      (step.1 ++ r.1, r.2.1, r.2.2)

/-- Stage 1 as configured: `search_queries_recommendation_task`, with the
`SuggestedSearchQueries` contract and the step-1 output file.  The
capability binding is the external language model, a parameter. -/
def search_queries_recommendation_task (b : List Json → StageOutcome) : Stage :=
  ⟨b, fun raw => (SuggestedSearchQueries.parse raw).map SuggestedSearchQueries.toJson,
   step1_output_file⟩

/-- Stage 2 as configured: `search_engine_task`, with the
`AllSearchResults` contract and the step-2 output file. -/
def search_engine_task (b : List Json → StageOutcome) : Stage :=
  ⟨b, fun raw => (AllSearchResults.parse raw).map AllSearchResults.toJson,
   step2_output_file⟩

/-- Stage 3 as configured: `scraping_task`, with the `AllExtractedJobs`
contract and the step-3 output file. -/
def scraping_task (b : List Json → StageOutcome) : Stage :=
  ⟨b, fun raw => (AllExtractedJobs.parse raw).map AllExtractedJobs.toJson,
   step3_output_file⟩

/-- Stage 4 as configured: `recruitment_report_author_task`, with no
output contract (free-form report) and the step-4 output file. -/
def recruitment_report_author_task (b : List Json → StageOutcome) : Stage :=
  ⟨b, fun raw => some raw, step4_output_file⟩

/-- The crew assembled in the source: the four tasks in sequential order,
parametrized by the four capability behaviours (external language model). -/
def rankyx_crew (b1 b2 b3 b4 : List Json → StageOutcome) : List Stage :=
  [search_queries_recommendation_task b1, search_engine_task b2,
   scraping_task b3, recruitment_report_author_task b4]

/-- Modelled from the spec: `rankyx_crew.kickoff(...)` — one sequential
run of the four stages over an initial store, returning the event trace,
the final store and the terminal state. -/
def kickoff (b1 b2 b3 b4 : List Json → StageOutcome) (fs : Fs) :
    List Event × Fs × RunState :=
  runStages 1 (rankyx_crew b1 b2 b3 b4) [] fs

/-- No occurrence of event `x` strictly before the first occurrence of
event `y` in a trace: `x` never happens until `y` has happened. -/
def noneBefore (y x : Event) : List Event → Bool
  | [] => true
  | e :: rest => if e = x then false else if e = y then true else noneBefore y x rest

/-- Whether a trace contains the event. -/
def hasEvent (x : Event) : List Event → Bool
  | [] => false
  | e :: rest => if e = x then true else hasEvent x rest

/-- Whether a trace contains a persistence event for the given stage. -/
def hasPersisted (i : Nat) : List Event → Bool
  | [] => false
  | .persisted j _ :: rest => if j = i then true else hasPersisted i rest
  | _ :: rest => hasPersisted i rest

/-- Number of invocations of the given stage in a trace. -/
def countInvoke (i : Nat) : List Event → Nat
  | [] => 0
  | .invoke j :: rest => (if j = i then 1 else 0) + countInvoke i rest
  | _ :: rest => countInvoke i rest

/-- The event trace of one `kickoff` run. -/
def kickoffTrace (b1 b2 b3 b4 : List Json → StageOutcome) (fs : Fs) :
    List Event :=
  (kickoff b1 b2 b3 b4 fs).1

/-- A value of the `inputs` dict passed to `rankyx_crew.kickoff` in
`__main__`: a string, a list of strings, or a natural number. -/
inductive ParamValue where
  | str (s : String)
  | strList (l : List String)
  | nat (n : Nat)
deriving DecidableEq, Repr

/-- Whether a kickoff input value is a sequence of strings. -/
def ParamValue.isStrList : ParamValue → Bool
  | .strList _ => true
  | _ => false

/-- The literal parameter bundle supplied to `rankyx_crew.kickoff` in the
`__main__` block of the source. -/
def kickoff_inputs : List (String × ParamValue) :=
  [("jobs_titles", .str "AI/ML Engineer"),
   ("country_name", .str "Egypt"),
   ("no_keywords", .nat NUM_QUERIES),
   ("language", .str "English")]

/-- A raw stage-3 candidate with every required field present, well-typed,
and `salary` absent. -/
def jobObjNoSalary (pu jt cn loc jpu jpd : String) (specs : List JobSpec)
    (rank : Int) (notes : List String) : Json :=
  .obj [("page_url", .str pu), ("job_title", .str jt),
        ("company_name", .str cn), ("location", .str loc),
        ("job_posting_url", .str jpu), ("job_posting_date", .str jpd),
        ("job_specs", .arr (specs.map JobSpec.toJson)),
        ("agent_recommendation_rank", .num rank),
        ("agent_recommendation_notes", .arr (notes.map Json.str))]

/-- A raw stage-1 completion that passes the stage-1 contract. -/
def good_queries_json : Json :=
  .obj [("queries", .arr [.str "AI Engineer jobs Egypt"])]

/-- One well-formed raw search-result record. -/
def good_result_json : Json :=
  .obj [("title", .str "AI Engineer"), ("url", .str "https://example.org/j"),
        ("content", .str "posting"), ("search_query", .str "AI Engineer jobs Egypt")]

/-- A raw stage-2 completion with exactly 20 well-formed results, passing
the stage-2 contract. -/
def good_results_json : Json :=
  .obj [("results", .arr (List.replicate 20 good_result_json))]

/-- A raw stage-3 completion carrying an empty job list. -/
def empty_jobs_json : Json := .obj [("jobs", .arr [])]

/-- A raw stage-4 completion (free-form report markup). -/
def report_json : Json := .str "<html></html>"

/-- A capability behaviour that always returns `good_queries_json`. -/
def queries_behavior : List Json → StageOutcome := fun _ => .output good_queries_json

/-- A capability behaviour that always returns `good_results_json`. -/
def results_behavior : List Json → StageOutcome := fun _ => .output good_results_json

/-- A capability behaviour that always returns `empty_jobs_json`. -/
def empty_jobs_behavior : List Json → StageOutcome := fun _ => .output empty_jobs_json

/-- A capability behaviour that always returns `report_json`. -/
def report_behavior : List Json → StageOutcome := fun _ => .output report_json

/-- A capability behaviour that echoes its received context as its raw
completion, making the handed-forward context observable. -/
def context_echo_behavior : List Json → StageOutcome := fun ctx => .output (.arr ctx)

/-- A capability behaviour whose every invocation raises a collaborator
error (e.g. the search provider failing on every call). -/
def collab_error_behavior : List Json → StageOutcome := fun _ => .collab_error

/-- The empty artifact store: no run has been persisted yet. -/
def empty_fs : Fs := fun _ => none

/-- The run in which stages 1 and 2 succeed, stage 3 returns the empty
job list, and stage 4 echoes its received context. -/
def empty_jobs_run : List Event × Fs × RunState :=
  kickoff queries_behavior results_behavior empty_jobs_behavior
    context_echo_behavior empty_fs

/-- The eight event traces a run of the four-stage crew can produce: a
failure at stage `i` (collaborator error or validation failure) ends the
trace there; otherwise stage `i` validates and persists and stage `i + 1`
begins; stage 4 has no contract, so it cannot fail validation. -/
def possibleTraces : List (List Event) :=
  [[.invoke 1, .collab_failed 1],
   [.invoke 1, .validation_failed 1],
   [.invoke 1, .validated 1, .persisted 1 step1_output_file,
    .invoke 2, .collab_failed 2],
   [.invoke 1, .validated 1, .persisted 1 step1_output_file,
    .invoke 2, .validation_failed 2],
   [.invoke 1, .validated 1, .persisted 1 step1_output_file,
    .invoke 2, .validated 2, .persisted 2 step2_output_file,
    .invoke 3, .collab_failed 3],
   [.invoke 1, .validated 1, .persisted 1 step1_output_file,
    .invoke 2, .validated 2, .persisted 2 step2_output_file,
    .invoke 3, .validation_failed 3],
   [.invoke 1, .validated 1, .persisted 1 step1_output_file,
    .invoke 2, .validated 2, .persisted 2 step2_output_file,
    .invoke 3, .validated 3, .persisted 3 step3_output_file,
    .invoke 4, .collab_failed 4],
   [.invoke 1, .validated 1, .persisted 1 step1_output_file,
    .invoke 2, .validated 2, .persisted 2 step2_output_file,
    .invoke 3, .validated 3, .persisted 3 step3_output_file,
    .invoke 4, .validated 4, .persisted 4 step4_output_file]]

/-! ## Helper lemmas -/

/-- Parsing a serialized list of strings recovers the list verbatim. -/
theorem parseAll_asString_map (qs : List String) :
    parseAll Json.asString (qs.map Json.str) = some qs := by
  induction qs with
  | nil => rfl
  | cons q qs ih => simp [parseAll, Json.asString, ih]

/-- A successful `parseAll` preserves the length of the list. -/
theorem parseAll_length {α : Type} {f : Json → Option α} :
    ∀ {xs : List Json} {ys : List α},
      parseAll f xs = some ys → ys.length = xs.length := by
  intro xs
  induction xs with
  | nil => intro ys h; simp [parseAll] at h; simp [← h]
  | cons x xs ih =>
    intro ys h
    simp only [parseAll] at h
    cases hf : f x with
    | none => rw [hf] at h; exact absurd h (by simp)
    | some y =>
      rw [hf] at h
      cases hr : parseAll f xs with
      | none => rw [hr] at h; exact absurd h (by simp)
      | some zs =>
        rw [hr] at h
        cases h
        simp [ih hr]

/-- Parsing a serialized list of `JobSpec` records recovers it verbatim. -/
theorem parseAll_jobSpec_map (specs : List JobSpec) :
    parseAll JobSpec.parse (specs.map JobSpec.toJson) = some specs := by
  induction specs with
  | nil => rfl
  | cons s specs ih =>
    simp [parseAll, JobSpec.parse, JobSpec.toJson, jlookup, Json.asString, ih]

/-- Stage-1 validation of a well-typed raw query object: acceptance exactly
when the number of queries lies within `1 .. NUM_QUERIES`, returning the
queries verbatim. -/
theorem suggested_parse_obj (qs : List String) :
    SuggestedSearchQueries.parse (.obj [("queries", .arr (qs.map Json.str))]) =
      if 1 ≤ qs.length ∧ qs.length ≤ NUM_QUERIES then some ⟨qs⟩ else none := by
  simp [SuggestedSearchQueries.parse, jlookup, Json.asStringList, parseAll_asString_map]

/-- Any artifact accepted by stage-1 validation satisfies the declared
cardinality bounds. -/
theorem suggested_parse_bounds (raw : Json) (a : SuggestedSearchQueries)
    (h : SuggestedSearchQueries.parse raw = some a) :
    1 ≤ a.queries.length ∧ a.queries.length ≤ NUM_QUERIES := by
  unfold SuggestedSearchQueries.parse at h
  repeat' split at h
  all_goals try exact Option.noConfusion h
  rename_i cond
  injection h with h
  subst h
  simpa using cond

/-- One stage whose capability raises: the trace records the invocation
and the collaborator failure, nothing is persisted, the run fails. -/
theorem runStages_cons_collab (i : Nat) (st : Stage) (rest : List Stage)
    (ctx : List Json) (fs : Fs) (h : st.produce ctx = .collab_error) :
    runStages i (st :: rest) ctx fs =
      ([.invoke i, .collab_failed i], fs, .FAILED) := by
  simp [runStages, runStage, h]

/-- One stage whose raw completion fails validation: the trace records the
validation failure, nothing is persisted, the run fails. -/
theorem runStages_cons_invalid (i : Nat) (st : Stage) (rest : List Stage)
    (ctx : List Json) (fs : Fs) (raw : Json) (h : st.produce ctx = .output raw)
    (hv : st.validate raw = none) :
    runStages i (st :: rest) ctx fs =
      ([.invoke i, .validation_failed i], fs, .FAILED) := by
  simp [runStages, runStage, h, hv]

/-- One stage whose raw completion validates: the artifact is persisted to
the stage's output file and appended to the context for the rest. -/
theorem runStages_cons_valid (i : Nat) (st : Stage) (rest : List Stage)
    (ctx : List Json) (fs : Fs) (raw art : Json)
    (h : st.produce ctx = .output raw) (hv : st.validate raw = some art) :
    runStages i (st :: rest) ctx fs =
      ([.invoke i, .validated i, .persisted i st.output_file] ++
         (runStages (i + 1) rest (ctx ++ [art])
            (fun p => if p = st.output_file then some art else fs p)).1,
       (runStages (i + 1) rest (ctx ++ [art])
          (fun p => if p = st.output_file then some art else fs p)).2.1,
       (runStages (i + 1) rest (ctx ++ [art])
          (fun p => if p = st.output_file then some art else fs p)).2.2) := by
  simp only [runStages, runStage, h, hv]

/-- Case analysis of a run of the four-stage crew: its event trace is one
of the eight possible traces. -/
theorem kickoffTrace_mem_possibleTraces (b1 b2 b3 b4 : List Json → StageOutcome)
    (fs : Fs) : kickoffTrace b1 b2 b3 b4 fs ∈ possibleTraces := by
  unfold kickoffTrace kickoff rankyx_crew
  rcases hb1 : b1 [] with _ | raw1
  · rw [runStages_cons_collab _ _ _ _ _ hb1]
    simp [possibleTraces]
  rcases hp1 : SuggestedSearchQueries.parse raw1 with _ | a1
  · have hv : (search_queries_recommendation_task b1).validate raw1 = none := by
      simp [search_queries_recommendation_task, hp1]
    rw [runStages_cons_invalid _ _ _ _ _ _ hb1 hv]
    simp [possibleTraces]
  have hv1 : (search_queries_recommendation_task b1).validate raw1 =
      some (SuggestedSearchQueries.toJson a1) := by
    simp [search_queries_recommendation_task, hp1]
  rw [runStages_cons_valid _ _ _ _ _ _ _ hb1 hv1]
  rcases hb2 : b2 ([] ++ [SuggestedSearchQueries.toJson a1]) with _ | raw2
  · rw [runStages_cons_collab _ _ _ _ _ hb2]
    simp [possibleTraces, search_queries_recommendation_task]
  rcases hp2 : AllSearchResults.parse raw2 with _ | a2
  · have hv : (search_engine_task b2).validate raw2 = none := by
      simp [search_engine_task, hp2]
    rw [runStages_cons_invalid _ _ _ _ _ _ hb2 hv]
    simp [possibleTraces, search_queries_recommendation_task]
  have hv2 : (search_engine_task b2).validate raw2 =
      some (AllSearchResults.toJson a2) := by
    simp [search_engine_task, hp2]
  rw [runStages_cons_valid _ _ _ _ _ _ _ hb2 hv2]
  rcases hb3 : b3 ([] ++ [SuggestedSearchQueries.toJson a1] ++
      [AllSearchResults.toJson a2]) with _ | raw3
  · rw [runStages_cons_collab _ _ _ _ _ hb3]
    simp [possibleTraces, search_queries_recommendation_task, search_engine_task]
  rcases hp3 : AllExtractedJobs.parse raw3 with _ | a3
  · have hv : (scraping_task b3).validate raw3 = none := by
      simp [scraping_task, hp3]
    rw [runStages_cons_invalid _ _ _ _ _ _ hb3 hv]
    simp [possibleTraces, search_queries_recommendation_task, search_engine_task]
  have hv3 : (scraping_task b3).validate raw3 = some (AllExtractedJobs.toJson a3) := by
    simp [scraping_task, hp3]
  rw [runStages_cons_valid _ _ _ _ _ _ _ hb3 hv3]
  rcases hb4 : b4 ([] ++ [SuggestedSearchQueries.toJson a1] ++
      [AllSearchResults.toJson a2] ++ [AllExtractedJobs.toJson a3]) with _ | raw4
  · rw [runStages_cons_collab _ _ _ _ _ hb4]
    simp [possibleTraces, search_queries_recommendation_task, search_engine_task,
          scraping_task]
  have hv4 : (recruitment_report_author_task b4).validate raw4 = some raw4 := rfl
  rw [runStages_cons_valid _ _ _ _ _ _ _ hb4 hv4]
  simp [possibleTraces, runStages, search_queries_recommendation_task,
        search_engine_task, scraping_task, recruitment_report_author_task]

/-- The stage-3 output file differs from the stage-1 output file. -/
theorem path_ne_31 : step3_output_file ≠ step1_output_file := by decide

/-- The stage-4 output file differs from the stage-1 output file. -/
theorem path_ne_41 : step4_output_file ≠ step1_output_file := by decide

/-- A path that is no stage's output file is untouched by a run. -/
theorem runStages_untouched (stages : List Stage) (i : Nat) (ctx : List Json)
    (fs : Fs) (p : String) (hp : p ∉ stages.map Stage.output_file) :
    (runStages i stages ctx fs).2.1 p = fs p := by
  induction stages generalizing i ctx fs with
  | nil => rfl
  | cons st rest ih =>
    simp only [List.map_cons, List.mem_cons] at hp
    push_neg at hp
    obtain ⟨h1, h2⟩ := hp
    rcases hb : st.produce ctx with _ | raw
    · rw [runStages_cons_collab _ _ _ _ _ hb]
    · rcases hv : st.validate raw with _ | art
      · rw [runStages_cons_invalid _ _ _ _ _ _ hb hv]
      · rw [runStages_cons_valid _ _ _ _ _ _ _ hb hv]
        exact (ih _ _ _ h2).trans (if_neg h1)

/-- A run never erases a persisted artifact: a path written before the run
is still written after it. -/
theorem runStages_mono (stages : List Stage) (i : Nat) (ctx : List Json)
    (fs : Fs) (p : String) (h : (fs p).isSome) :
    ((runStages i stages ctx fs).2.1 p).isSome := by
  induction stages generalizing i ctx fs with
  | nil => exact h
  | cons st rest ih =>
    rcases hb : st.produce ctx with _ | raw
    · rw [runStages_cons_collab _ _ _ _ _ hb]; exact h
    · rcases hv : st.validate raw with _ | art
      · rw [runStages_cons_invalid _ _ _ _ _ _ hb hv]; exact h
      · rw [runStages_cons_valid _ _ _ _ _ _ _ hb hv]
        refine ih _ _ _ ?_
        by_cases hc : p = st.output_file
        · simp [hc]
        · simpa [hc] using h

/-- After a completed run, every stage's output file holds an artifact. -/
theorem runStages_completed_written (st : Stage) (stages : List Stage) (i : Nat)
    (ctx : List Json) (fs : Fs)
    (h : (runStages i stages ctx fs).2.2 = .COMPLETED) (hst : st ∈ stages) :
    ((runStages i stages ctx fs).2.1 st.output_file).isSome := by
  induction stages generalizing i ctx fs with
  | nil => cases hst
  | cons st0 rest ih =>
    rcases hb : st0.produce ctx with _ | raw
    · rw [runStages_cons_collab _ _ _ _ _ hb] at h
      exact absurd h (by simp)
    · rcases hv : st0.validate raw with _ | art
      · rw [runStages_cons_invalid _ _ _ _ _ _ hb hv] at h
        exact absurd h (by simp)
      · rw [runStages_cons_valid _ _ _ _ _ _ _ hb hv] at h ⊢
        rcases List.mem_cons.mp hst with rfl | hmem
        · exact runStages_mono _ _ _ _ _ (by simp)
        · exact ih _ _ _ h hmem

/-- The output files of the crew's stages are the four fixed step paths. -/
theorem rankyx_map_output (b1 b2 b3 b4 : List Json → StageOutcome) :
    (rankyx_crew b1 b2 b3 b4).map Stage.output_file =
      [step1_output_file, step2_output_file, step3_output_file, step4_output_file] :=
  rfl

/-! ## Claims -/

/-- C2: stage-1 validation rejects a query list with fewer than 1 or more
than `NUM_QUERIES = 10` queries, and accepts verbatim any query list whose
length is within those bounds. -/
theorem suggested_queries_schema_enforcement (qs : List String) :
    SuggestedSearchQueries.parse (.obj [("queries", .arr (qs.map Json.str))]) =
      if 1 ≤ qs.length ∧ qs.length ≤ NUM_QUERIES then some ⟨qs⟩ else none :=
  suggested_parse_obj qs

/-- C3: stage-2 validation rejects any result collection with fewer than
20 results, regardless of the content of the individual result records
(the elements are arbitrary raw values). -/
theorem allSearchResults_min_cardinality (rs : List Json) (h : rs.length < 20) :
    AllSearchResults.parse (.obj [("results", .arr rs)]) = none := by
  unfold AllSearchResults.parse
  cases hp : parseAll SingleSearchResult.parse rs with
  | none => simp [jlookup, hp]
  | some l =>
    have hl := parseAll_length hp
    have : ¬ 20 ≤ l.length := by omega
    simp [jlookup, hp, this]

/-- Witness for C3: the empty result collection is rejected. -/
theorem allSearchResults_min_cardinality_witness :
    ([] : List Json).length < 20 ∧
      AllSearchResults.parse (.obj [("results", .arr [])]) = none :=
  ⟨by decide, allSearchResults_min_cardinality [] (by decide)⟩

/-- C6: serializing an artifact accepted by the stage-1 contract and
re-parsing it yields a value equal to the original artifact. -/
theorem suggested_queries_roundtrip (raw : Json) (a : SuggestedSearchQueries)
    (h : SuggestedSearchQueries.parse raw = some a) :
    SuggestedSearchQueries.parse (SuggestedSearchQueries.toJson a) = some a := by
  obtain ⟨hlo, hhi⟩ := suggested_parse_bounds raw a h
  obtain ⟨qs⟩ := a
  rw [SuggestedSearchQueries.toJson, suggested_parse_obj]
  simp at hlo hhi
  simp [hlo, hhi]

/-- Witness for C6: the singleton query list round-trips. -/
theorem suggested_queries_roundtrip_witness :
    SuggestedSearchQueries.parse (.obj [("queries", .arr [.str "q"])]) = some ⟨["q"]⟩ ∧
      SuggestedSearchQueries.parse (SuggestedSearchQueries.toJson ⟨["q"]⟩) = some ⟨["q"]⟩ :=
  ⟨by decide, suggested_queries_roundtrip (.obj [("queries", .arr [.str "q"])]) ⟨["q"]⟩ (by decide)⟩

/-- C7: the scrape tool returns exactly the page URL it was called with
together with the raw provider payload, and the extraction instruction it
sends to the scraping collaborator embeds the serialized
`SingleExtractedJob` contract. -/
theorem web_scraping_tool_shape (c : String → String → Json) (u : String) :
    web_scraping_tool c u =
        .obj [("page_url", .str u), ("details", c u scrape_user_prompt)] ∧
      ∃ pre post,
        scrape_user_prompt = pre ++ SingleExtractedJob.schema_json ++ post :=
  ⟨rfl, "Extract ```json\n", "\n``` from the job posting web page.", rfl⟩

/-- A stage-3 candidate in which a required field is absent fails the
`SingleExtractedJob` contract. -/
theorem singleExtractedJob_missing_required (fields : List (String × Json))
    (k : String) (hk : k ∈ SingleExtractedJob.requiredFields)
    (h : jlookup k fields = none) :
    SingleExtractedJob.parse (.obj fields) = none := by
  unfold SingleExtractedJob.parse
  repeat' split
  all_goals try rfl
  all_goals
    simp only [SingleExtractedJob.requiredFields, List.mem_cons,
      List.not_mem_nil, or_false] at hk
  all_goals
    rcases hk with rfl | rfl | rfl | rfl | rfl | rfl | rfl | rfl | rfl <;> simp_all

/-- A stage-3 candidate with all required fields present and `salary`
absent passes the `SingleExtractedJob` contract, with `salary = none`. -/
theorem singleExtractedJob_parse_noSalary (pu jt cn loc jpu jpd : String)
    (specs : List JobSpec) (rank : Int) (notes : List String) :
    SingleExtractedJob.parse (jobObjNoSalary pu jt cn loc jpu jpd specs rank notes) =
      some ⟨pu, jt, cn, loc, jpu, jpd, none, specs, rank, notes⟩ := by
  simp [jobObjNoSalary, SingleExtractedJob.parse, jlookup, Json.asString,
        Json.asInt, Json.asStringList, parseAll_jobSpec_map, parseAll_asString_map]

/-- C4: stage-3 validation rejects a candidate in which any of the nine
required fields (`page_url`, `job_title`, `company_name`, `location`,
`job_posting_url`, `job_posting_date`, `job_specs`,
`agent_recommendation_rank`, `agent_recommendation_notes` — the spec's
source_url/title/company/location/posting_url/posting_date/specs/rank/notes)
is missing, and accepts a candidate in which `salary` is the only missing
field. -/
theorem singleExtractedJob_required_enforcement :
    (∀ (fields : List (String × Json)) (k : String),
        k ∈ SingleExtractedJob.requiredFields → jlookup k fields = none →
        SingleExtractedJob.parse (.obj fields) = none) ∧
      ∀ (pu jt cn loc jpu jpd : String) (specs : List JobSpec) (rank : Int)
        (notes : List String),
        SingleExtractedJob.parse (jobObjNoSalary pu jt cn loc jpu jpd specs rank notes) =
          some ⟨pu, jt, cn, loc, jpu, jpd, none, specs, rank, notes⟩ :=
  ⟨singleExtractedJob_missing_required, singleExtractedJob_parse_noSalary⟩

/-- Witness for C4: the empty candidate (every field missing) is rejected,
and a concrete salary-less candidate is accepted. -/
theorem singleExtractedJob_required_enforcement_witness :
    ("job_title" ∈ SingleExtractedJob.requiredFields ∧
        jlookup "job_title" ([] : List (String × Json)) = none ∧
        SingleExtractedJob.parse (.obj []) = none) ∧
      SingleExtractedJob.parse (jobObjNoSalary "p" "t" "c" "l" "u" "d" [] 1 ["n"]) =
        some ⟨"p", "t", "c", "l", "u", "d", none, [], 1, ["n"]⟩ :=
  ⟨⟨by decide, rfl,
    singleExtractedJob_required_enforcement.1 [] "job_title" (by decide) rfl⟩,
   singleExtractedJob_required_enforcement.2 "p" "t" "c" "l" "u" "d" [] 1 ["n"]⟩

/-- C8, counterexample: the `jobs_titles` entry of the parameter bundle
passed in `__main__` is the single string `"AI/ML Engineer"`, not a
sequence of strings. -/
theorem kickoff_inputs_titles_not_sequence :
    jlookup "jobs_titles" kickoff_inputs = some (.str "AI/ML Engineer") ∧
      (jlookup "jobs_titles" kickoff_inputs).map ParamValue.isStrList = some false := by
  decide

/-- C8, amended: the pipeline is invoked with a single parameter bundle in
which role titles is a string, target country and target language are
strings, and the query budget is a positive integer equal to (hence within)
the fixed cap `NUM_QUERIES`. -/
theorem kickoff_inputs_bundle :
    jlookup "jobs_titles" kickoff_inputs = some (.str "AI/ML Engineer") ∧
      jlookup "country_name" kickoff_inputs = some (.str "Egypt") ∧
      jlookup "language" kickoff_inputs = some (.str "English") ∧
      jlookup "no_keywords" kickoff_inputs = some (.nat NUM_QUERIES) ∧
      1 ≤ NUM_QUERIES ∧ NUM_QUERIES ≤ NUM_QUERIES := by
  decide

/-- C1: in every run, stage N is never invoked until stage N−1's artifact
has validated (first group), the stages run strictly in order, each at most
once (second and third groups), and a stage whose artifact fails validation
never persists it and never hands control to the next stage (last group). -/
theorem pipeline_stage_ordering (b1 b2 b3 b4 : List Json → StageOutcome)
    (fs : Fs) :
    (noneBefore (.validated 1) (.invoke 2) (kickoffTrace b1 b2 b3 b4 fs) = true ∧
      noneBefore (.validated 2) (.invoke 3) (kickoffTrace b1 b2 b3 b4 fs) = true ∧
      noneBefore (.validated 3) (.invoke 4) (kickoffTrace b1 b2 b3 b4 fs) = true) ∧
    (noneBefore (.invoke 1) (.invoke 2) (kickoffTrace b1 b2 b3 b4 fs) = true ∧
      noneBefore (.invoke 2) (.invoke 3) (kickoffTrace b1 b2 b3 b4 fs) = true ∧
      noneBefore (.invoke 3) (.invoke 4) (kickoffTrace b1 b2 b3 b4 fs) = true) ∧
    (countInvoke 1 (kickoffTrace b1 b2 b3 b4 fs) ≤ 1 ∧
      countInvoke 2 (kickoffTrace b1 b2 b3 b4 fs) ≤ 1 ∧
      countInvoke 3 (kickoffTrace b1 b2 b3 b4 fs) ≤ 1 ∧
      countInvoke 4 (kickoffTrace b1 b2 b3 b4 fs) ≤ 1) ∧
    ((hasEvent (.validation_failed 1) (kickoffTrace b1 b2 b3 b4 fs) &&
        (hasPersisted 1 (kickoffTrace b1 b2 b3 b4 fs) ||
          hasEvent (.invoke 2) (kickoffTrace b1 b2 b3 b4 fs))) = false ∧
      (hasEvent (.validation_failed 2) (kickoffTrace b1 b2 b3 b4 fs) &&
        (hasPersisted 2 (kickoffTrace b1 b2 b3 b4 fs) ||
          hasEvent (.invoke 3) (kickoffTrace b1 b2 b3 b4 fs))) = false ∧
      (hasEvent (.validation_failed 3) (kickoffTrace b1 b2 b3 b4 fs) &&
        (hasPersisted 3 (kickoffTrace b1 b2 b3 b4 fs) ||
          hasEvent (.invoke 4) (kickoffTrace b1 b2 b3 b4 fs))) = false) := by
  have h := kickoffTrace_mem_possibleTraces b1 b2 b3 b4 fs
  simp only [possibleTraces, List.mem_cons, List.not_mem_nil, or_false] at h
  rcases h with h | h | h | h | h | h | h | h <;> rw [h] <;> decide

/-- C5: the search tool returns the provider's response — or raised
exception — unchanged (no caching, no deduplication, no retry), and a run
whose search collaborator raises on every stage-2 call ends `FAILED` with
no stage-3 or stage-4 artifact persisted. -/
theorem search_failure_fail_fast (b1 b3 b4 : List Json → StageOutcome) (fs : Fs) :
    (∀ (c : String → Except String Json) (q : String),
        search_engine_tool c q = c q) ∧
      (kickoff b1 collab_error_behavior b3 b4 fs).2.2 = .FAILED ∧
      hasPersisted 3 (kickoff b1 collab_error_behavior b3 b4 fs).1 = false ∧
      hasPersisted 4 (kickoff b1 collab_error_behavior b3 b4 fs).1 = false ∧
      (kickoff b1 collab_error_behavior b3 b4 fs).2.1 step3_output_file =
        fs step3_output_file ∧
      (kickoff b1 collab_error_behavior b3 b4 fs).2.1 step4_output_file =
        fs step4_output_file := by
  refine ⟨fun c q => rfl, ?_⟩
  unfold kickoff rankyx_crew
  rcases hb1 : b1 [] with _ | raw1
  · rw [runStages_cons_collab _ _ _ _ _ hb1]
    simp [hasPersisted]
  rcases hp1 : SuggestedSearchQueries.parse raw1 with _ | a1
  · have hv : (search_queries_recommendation_task b1).validate raw1 = none := by
      simp [search_queries_recommendation_task, hp1]
    rw [runStages_cons_invalid _ _ _ _ _ _ hb1 hv]
    simp [hasPersisted]
  have hv1 : (search_queries_recommendation_task b1).validate raw1 =
      some (SuggestedSearchQueries.toJson a1) := by
    simp [search_queries_recommendation_task, hp1]
  rw [runStages_cons_valid _ _ _ _ _ _ _ hb1 hv1]
  have hb2 : (search_engine_task collab_error_behavior).produce
      ([] ++ [SuggestedSearchQueries.toJson a1]) = .collab_error := rfl
  rw [runStages_cons_collab _ _ _ _ _ hb2]
  refine ⟨rfl, by simp [hasPersisted], by simp [hasPersisted], ?_, ?_⟩ <;>
    simp [search_queries_recommendation_task, path_ne_31, path_ne_41]

/-- C9: all writes of a run land on the four fixed, stage-indexed output
paths (any other path keeps its prior content across two runs), and after
a completed run, a second run with the same parameter bundle — whatever
its capability behaviours produce — overwrites in place: the set of
persisted paths after the second run equals the set after the first. -/
theorem pipeline_idempotent_rerun
    (b1 b2 b3 b4 b1' b2' b3' b4' : List Json → StageOutcome) (fs : Fs)
    (h : (kickoff b1 b2 b3 b4 fs).2.2 = .COMPLETED) :
    (∀ p, p ∉ [step1_output_file, step2_output_file,
               step3_output_file, step4_output_file] →
       (kickoff b1' b2' b3' b4' ((kickoff b1 b2 b3 b4 fs).2.1)).2.1 p = fs p) ∧
    (∀ p, ((kickoff b1' b2' b3' b4' ((kickoff b1 b2 b3 b4 fs).2.1)).2.1 p).isSome ↔
       (((kickoff b1 b2 b3 b4 fs).2.1) p).isSome) := by
  constructor
  · intro p hp
    have h2 := runStages_untouched (rankyx_crew b1' b2' b3' b4') 1 []
      ((kickoff b1 b2 b3 b4 fs).2.1) p (by rw [rankyx_map_output]; exact hp)
    have h1 := runStages_untouched (rankyx_crew b1 b2 b3 b4) 1 [] fs p
      (by rw [rankyx_map_output]; exact hp)
    exact h2.trans h1
  · intro p
    constructor
    · intro hs
      by_cases hmem : p ∈ [step1_output_file, step2_output_file,
                          step3_output_file, step4_output_file]
      · simp only [List.mem_cons, List.not_mem_nil, or_false] at hmem
        rcases hmem with rfl | rfl | rfl | rfl
        · exact runStages_completed_written (search_queries_recommendation_task b1)
            _ _ _ _ h (by simp [rankyx_crew])
        · exact runStages_completed_written (search_engine_task b2)
            _ _ _ _ h (by simp [rankyx_crew])
        · exact runStages_completed_written (scraping_task b3)
            _ _ _ _ h (by simp [rankyx_crew])
        · exact runStages_completed_written (recruitment_report_author_task b4)
            _ _ _ _ h (by simp [rankyx_crew])
      · have h2 : (kickoff b1' b2' b3' b4' ((kickoff b1 b2 b3 b4 fs).2.1)).2.1 p =
            (kickoff b1 b2 b3 b4 fs).2.1 p :=
          runStages_untouched (rankyx_crew b1' b2' b3' b4') 1 []
            ((kickoff b1 b2 b3 b4 fs).2.1) p (by rw [rankyx_map_output]; exact hmem)
        rw [h2] at hs
        exact hs
    · intro hs
      exact runStages_mono _ _ _ _ _ hs

/-- Witness for C9: a completed concrete run, rerun with the same
behaviours; the stage-1 path is persisted after two runs exactly when it is
persisted after one. -/
theorem pipeline_idempotent_rerun_witness :
    (kickoff queries_behavior results_behavior empty_jobs_behavior
        report_behavior empty_fs).2.2 = .COMPLETED ∧
      (((kickoff queries_behavior results_behavior empty_jobs_behavior
            report_behavior
            ((kickoff queries_behavior results_behavior empty_jobs_behavior
                report_behavior empty_fs).2.1)).2.1 step1_output_file).isSome ↔
        (((kickoff queries_behavior results_behavior empty_jobs_behavior
            report_behavior empty_fs).2.1) step1_output_file).isSome) :=
  ⟨rfl, (pipeline_idempotent_rerun queries_behavior results_behavior
      empty_jobs_behavior report_behavior queries_behavior results_behavior
      empty_jobs_behavior report_behavior empty_fs rfl).2 step1_output_file⟩

/-- C10: the stage-3 contract accepts the empty job list; in a run whose
stage 3 returns the empty list, the empty artifact is persisted to the
stage-3 path and handed forward — stage 4 is invoked and its context (here
echoed into the stage-4 artifact) ends with the empty stage-3 artifact. -/
theorem allExtractedJobs_empty_flow :
    AllExtractedJobs.parse empty_jobs_json = some ⟨[]⟩ ∧
      empty_jobs_run.2.2 = .COMPLETED ∧
      hasPersisted 3 empty_jobs_run.1 = true ∧
      empty_jobs_run.2.1 step3_output_file = some (AllExtractedJobs.toJson ⟨[]⟩) ∧
      hasEvent (.invoke 4) empty_jobs_run.1 = true ∧
      ∃ pre, empty_jobs_run.2.1 step4_output_file =
        some (.arr (pre ++ [AllExtractedJobs.toJson ⟨[]⟩])) :=
  ⟨rfl, rfl, rfl, rfl, rfl,
   ⟨[SuggestedSearchQueries.toJson ⟨["AI Engineer jobs Egypt"]⟩,
     AllSearchResults.toJson ⟨List.replicate 20
       ⟨"AI Engineer", "https://example.org/j", "posting",
        "AI Engineer jobs Egypt"⟩⟩],
    rfl⟩⟩

end AiJobCrew
